import Mathlib

/-!
Shallow embedding of the conference-attendee survey platform
(Express route handlers over a Prisma-backed relational store).
Database rows are Lean structures, tables are lists, and each route
handler is a pure function from the store and the request to a result
and an updated store.  Nondeterministic inputs of the real code
(generated passwords, random url-code suffixes, bcrypt comparison,
database-generated ids, the current time) are explicit parameters.
-/

namespace ConfApp

/-- Charwise lowering, modelling the JavaScript `email.toLowerCase()` calls. -/
def lowerStr (s : String) : String := String.mk (s.data.map Char.toLower)

/-- Charwise uppering, modelling the JavaScript `name.toUpperCase()` call. -/
def upperStr (s : String) : String := String.mk (s.data.map Char.toUpper)

/-- Charwise trim of leading and trailing whitespace, modelling the
JavaScript `.trim()` calls. -/
def jsTrim (s : String) : String :=
  String.mk
    (((s.data.dropWhile Char.isWhitespace).reverse.dropWhile
      Char.isWhitespace).reverse)

theorem lowerStr_eq_empty {s : String} (h : lowerStr s = "") : s = "" := by
  unfold lowerStr at h
  have hd : s.data.map Char.toLower = ("" : String).data := congrArg String.data h
  rw [show ("" : String).data = [] from rfl] at hd
  have hnil : s.data = [] := List.map_eq_nil_iff.mp hd
  cases s
  simp_all

/-- A row of the Conference table (the fields the verified routes read). -/
structure Conference where
  id : Nat
  urlCode : String
  name : String
  status : String
  adminId : Nat
deriving Repr, DecidableEq

/-- A row of the Survey table. -/
structure Survey where
  id : Nat
  conferenceId : Nat
  title : String
  description : String
  status : String
  sortOrder : Nat
deriving Repr, DecidableEq

/-- A row of the Question table (the fields the verified routes read). -/
structure Question where
  id : Nat
  surveyId : Nat
  isRequired : Bool
deriving Repr, DecidableEq

/-- A row of the Attendee table.  Timestamps are milliseconds as `Nat`. -/
structure Attendee where
  id : Nat
  conferenceId : Nat
  email : String
  firstName : String
  lastName : String
  passwordHash : Option String
  status : String
  failedAttempts : Nat
  lockedUntil : Option Nat
  firstLoginAt : Option Nat
  lastLoginAt : Option Nat
deriving Repr, DecidableEq

/-- A row of the Response table (the fields the verified routes read). -/
structure Response where
  questionId : Nat
  attendeeId : Nat
  answer : String
deriving Repr, DecidableEq

/-! ## Survey routes (src/unnamed/part_004)

`PUT /surveys/:id/activate` first runs `updateMany` turning every other
active survey of the same conference inactive, then activates the target.
`POST /surveys` always creates with status draft and the next sort order.
`PUT /surveys/:id` writes only title, description and sortOrder.
-/

/-- `POST /surveys`: create with status draft and max sortOrder + 1.
The database rejects an insert whose primary key already exists, so a
duplicate id leaves the table unchanged. -/
def createSurvey (l : List Survey) (cid newId : Nat) (title description : String) :
    List Survey :=
  if l.any (fun s => s.id == newId) then l
  else
    let maxSort := (l.filter (fun s => s.conferenceId == cid)).foldl
      (fun m s => max m s.sortOrder) 0
    l ++ [{ id := newId, conferenceId := cid, title := title,
            description := description, status := "draft",
            sortOrder := maxSort + 1 }]

/-- `PUT /surveys/:id`: update title, description and sortOrder only. -/
def updateSurvey (l : List Survey) (sid : Nat) (title description : String)
    (sortOrder : Nat) : List Survey :=
  l.map (fun s => if s.id = sid then
    { s with title := title, description := description, sortOrder := sortOrder }
  else s)

/-- The per-row effect of the `updateMany` in the activate route: an
active survey of the same conference other than the target turns inactive. -/
def deactOne (tc sid : Nat) (s : Survey) : Survey :=
  if s.conferenceId = tc ∧ s.id ≠ sid ∧ s.status = "active"
  then { s with status := "inactive" } else s

/-- The per-row effect of the final `update` in the activate route. -/
def actOne (sid : Nat) (s : Survey) : Survey :=
  if s.id = sid then { s with status := "active" } else s

/-- `PUT /surveys/:id/activate`: 404 (no change) when the id is absent,
otherwise deactivate every other active survey of the same conference and
then activate the target. -/
def activateSurvey (l : List Survey) (sid : Nat) : List Survey :=
  match l.find? (fun s => s.id == sid) with
  | none => l
  | some target => (l.map (deactOne target.conferenceId sid)).map (actOne sid)

/-- `PUT /surveys/:id/deactivate`: set the target inactive. -/
def deactivateSurvey (l : List Survey) (sid : Nat) : List Survey :=
  match l.find? (fun s => s.id == sid) with
  | none => l
  | some _ =>
    l.map (fun s => if s.id = sid then { s with status := "inactive" } else s)

/-- One authorized call of the survey routes that write survey rows. -/
inductive SurveyOp where
  | create (conferenceId newId : Nat) (title description : String)
  | update (id : Nat) (title description : String) (sortOrder : Nat)
  | activate (id : Nat)
  | deactivate (id : Nat)
deriving Repr

def surveyStep (l : List Survey) : SurveyOp → List Survey
  | .create cid nid t d => createSurvey l cid nid t d
  | .update sid t d so => updateSurvey l sid t d so
  | .activate sid => activateSurvey l sid
  | .deactivate sid => deactivateSurvey l sid

def runSurveyOps (l : List Survey) (ops : List SurveyOp) : List Survey :=
  ops.foldl surveyStep l

/-- Database well-formedness: primary keys of the Survey table are unique. -/
def SurveyIdsNodup (l : List Survey) : Prop := (l.map Survey.id).Nodup

/-- At most one active survey per conference, stated pairwise. -/
def AtMostOneActive (l : List Survey) : Prop :=
  ∀ s1 ∈ l, ∀ s2 ∈ l, s1.conferenceId = s2.conferenceId →
    s1.status = "active" → s2.status = "active" → s1.id = s2.id

def SurveyInv (l : List Survey) : Prop := SurveyIdsNodup l ∧ AtMostOneActive l

theorem deactOne_id (tc sid : Nat) (s : Survey) : (deactOne tc sid s).id = s.id := by
  unfold deactOne
  split <;> rfl

theorem deactOne_conferenceId (tc sid : Nat) (s : Survey) :
    (deactOne tc sid s).conferenceId = s.conferenceId := by
  unfold deactOne
  split <;> rfl

theorem actOne_id (sid : Nat) (s : Survey) : (actOne sid s).id = s.id := by
  unfold actOne
  split <;> rfl

theorem actOne_conferenceId (sid : Nat) (s : Survey) :
    (actOne sid s).conferenceId = s.conferenceId := by
  unfold actOne
  split <;> rfl

theorem actOne_deactOne_status_of_id (tc sid : Nat) (s : Survey) (h : s.id = sid) :
    (actOne sid (deactOne tc sid s)).status = "active" := by
  have hd : deactOne tc sid s = s := by
    unfold deactOne
    rw [if_neg]
    intro hcond
    exact hcond.2.1 h
  rw [hd]
  unfold actOne
  rw [if_pos h]

theorem actOne_deactOne_of_id_ne (tc sid : Nat) (s : Survey) (h : s.id ≠ sid) :
    actOne sid (deactOne tc sid s) = deactOne tc sid s := by
  unfold actOne
  rw [if_neg]
  rw [deactOne_id]
  exact h

theorem deactOne_status_ne_active (tc sid : Nat) (s : Survey)
    (hc : s.conferenceId = tc) (hid : s.id ≠ sid) :
    (deactOne tc sid s).status ≠ "active" := by
  unfold deactOne
  by_cases hs : s.status = "active"
  · rw [if_pos ⟨hc, hid, hs⟩]
    intro hcon
    simp at hcon
  · rw [if_neg (fun hcond => hs hcond.2.2)]
    exact hs

theorem deactOne_of_conf_ne (tc sid : Nat) (s : Survey) (hc : s.conferenceId ≠ tc) :
    deactOne tc sid s = s := by
  unfold deactOne
  rw [if_neg]
  intro hcond
  exact hc hcond.1

theorem ids_map_of_preserve {l : List Survey} {f : Survey → Survey}
    (hid : ∀ s, (f s).id = s.id) :
    (l.map f).map Survey.id = l.map Survey.id := by
  rw [List.map_map]
  exact List.map_congr_left (fun s _ => hid s)

theorem surveyIdsNodup_map {l : List Survey} {f : Survey → Survey}
    (hid : ∀ s, (f s).id = s.id) (h : SurveyIdsNodup l) :
    SurveyIdsNodup (l.map f) := by
  unfold SurveyIdsNodup at h ⊢
  rw [ids_map_of_preserve hid]
  exact h

/-- A rowwise update that keeps ids and conference ids and never turns a
non-active row active preserves the exclusivity invariant. -/
theorem atMostOneActive_map {l : List Survey} {f : Survey → Survey}
    (hid : ∀ s, (f s).id = s.id)
    (hc : ∀ s, (f s).conferenceId = s.conferenceId)
    (hst : ∀ s, (f s).status = "active" → s.status = "active")
    (h : AtMostOneActive l) : AtMostOneActive (l.map f) := by
  intro s1 h1 s2 h2 hcf ha1 ha2
  obtain ⟨t1, ht1, rfl⟩ := List.mem_map.mp h1
  obtain ⟨t2, ht2, rfl⟩ := List.mem_map.mp h2
  rw [hid, hid]
  rw [hc, hc] at hcf
  exact h t1 ht1 t2 ht2 hcf (hst _ ha1) (hst _ ha2)

theorem surveyInv_create (l : List Survey) (cid nid : Nat) (t d : String)
    (h : SurveyInv l) : SurveyInv (createSurvey l cid nid t d) := by
  unfold createSurvey
  split
  · exact h
  next hne =>
    have hfresh : ∀ s ∈ l, s.id ≠ nid := by
      intro s hs heq
      exact hne (List.any_eq_true.mpr ⟨s, hs, by simp [heq]⟩)
    constructor
    · unfold SurveyIdsNodup
      rw [List.map_append, List.nodup_append]
      refine ⟨h.1, by simp, ?_⟩
      intro x hx
      simp only [List.map_cons, List.map_nil, List.mem_singleton]
      obtain ⟨s, hs, rfl⟩ := List.mem_map.mp hx
      simpa using hfresh s hs
    · intro s1 h1 s2 h2 hcf ha1 ha2
      rw [List.mem_append, List.mem_singleton] at h1 h2
      rcases h1 with h1 | rfl
      · rcases h2 with h2 | rfl
        · exact h.2 s1 h1 s2 h2 hcf ha1 ha2
        · simp at ha2
      · simp at ha1

theorem surveyInv_update (l : List Survey) (sid : Nat) (t d : String) (so : Nat)
    (h : SurveyInv l) : SurveyInv (updateSurvey l sid t d so) := by
  unfold updateSurvey
  have hid : ∀ s : Survey, ((if s.id = sid then
      { s with title := t, description := d, sortOrder := so } else s) : Survey).id
      = s.id := by
    intro s
    split <;> rfl
  refine ⟨surveyIdsNodup_map hid h.1, atMostOneActive_map hid ?_ ?_ h.2⟩
  · intro s
    split <;> rfl
  · intro s
    split <;> exact fun hs => hs

theorem surveyInv_deactivate (l : List Survey) (sid : Nat)
    (h : SurveyInv l) : SurveyInv (deactivateSurvey l sid) := by
  unfold deactivateSurvey
  cases hf : l.find? (fun s => s.id == sid) with
  | none => exact h
  | some target =>
    have hid : ∀ s : Survey, ((if s.id = sid then
        { s with status := "inactive" } else s) : Survey).id = s.id := by
      intro s
      split <;> rfl
    refine ⟨surveyIdsNodup_map hid h.1, atMostOneActive_map hid ?_ ?_ h.2⟩
    · intro s
      split <;> rfl
    · intro s
      split
      · intro hcon
        simp at hcon
      · exact fun hs => hs

/-- Every row produced by the activate route is the image of a stored row
under the two sequential per-row updates. -/
theorem mem_activate {l : List Survey} {sid : Nat} {target : Survey}
    (hf : l.find? (fun s => s.id == sid) = some target) {s : Survey}
    (hs : s ∈ activateSurvey l sid) :
    ∃ t ∈ l, s = actOne sid (deactOne target.conferenceId sid t) := by
  have hact : activateSurvey l sid
      = (l.map (deactOne target.conferenceId sid)).map (actOne sid) := by
    unfold activateSurvey
    rw [hf]
  rw [hact, List.map_map] at hs
  obtain ⟨t, ht, rfl⟩ := List.mem_map.mp hs
  exact ⟨t, ht, rfl⟩

/-- After a successful activation the target is active and every other
survey of the same conference is not active. -/
theorem activate_exclusive (l : List Survey) (sid : Nat) (target : Survey)
    (hf : l.find? (fun s => s.id == sid) = some target) :
    (∀ s ∈ activateSurvey l sid, s.id = sid → s.status = "active") ∧
    (∀ s ∈ activateSurvey l sid, s.conferenceId = target.conferenceId →
       s.id ≠ sid → s.status ≠ "active") := by
  constructor
  · intro s hs hsid
    obtain ⟨t, _, rfl⟩ := mem_activate hf hs
    have htid : t.id = sid := by
      rw [actOne_id, deactOne_id] at hsid
      exact hsid
    exact actOne_deactOne_status_of_id _ _ _ htid
  · intro s hs hconf hsid
    obtain ⟨t, _, rfl⟩ := mem_activate hf hs
    have htid : t.id ≠ sid := by
      rw [actOne_id, deactOne_id] at hsid
      exact hsid
    rw [actOne_deactOne_of_id_ne _ _ _ htid]
    rw [actOne_deactOne_of_id_ne _ _ _ htid, deactOne_conferenceId] at hconf
    exact deactOne_status_ne_active _ _ _ hconf htid

theorem surveyInv_activate (l : List Survey) (sid : Nat)
    (h : SurveyInv l) : SurveyInv (activateSurvey l sid) := by
  cases hf : l.find? (fun s => s.id == sid) with
  | none =>
    unfold activateSurvey
    rw [hf]
    exact h
  | some target =>
    have htmem : target ∈ l := List.mem_of_find?_eq_some hf
    have htid : target.id = sid := by
      have := List.find?_some hf
      simpa using this
    have hinj : ∀ a ∈ l, ∀ b ∈ l, a.id = b.id → a = b := by
      intro a ha b hb hab
      exact List.inj_on_of_nodup_map h.1 ha hb hab
    have hidc : ∀ s : Survey,
        (actOne sid (deactOne target.conferenceId sid s)).id = s.id := by
      intro s
      rw [actOne_id, deactOne_id]
    have hconfc : ∀ s : Survey,
        (actOne sid (deactOne target.conferenceId sid s)).conferenceId
          = s.conferenceId := by
      intro s
      rw [actOne_conferenceId, deactOne_conferenceId]
    constructor
    · unfold activateSurvey
      rw [hf]
      exact surveyIdsNodup_map (actOne_id sid) (surveyIdsNodup_map (deactOne_id _ _) h.1)
    · intro s1 h1 s2 h2 hcf ha1 ha2
      have hexc := activate_exclusive l sid target hf
      by_cases c1 : s1.id = sid
      · by_cases c2 : s2.id = sid
        · rw [c1, c2]
        · -- s1 is the target row, so the shared conference is the target conference
          obtain ⟨t1, ht1, rfl⟩ := mem_activate hf h1
          have ht1id : t1.id = sid := by
            rw [hidc] at c1
            exact c1
          have ht1t : t1 = target := hinj t1 ht1 target htmem (by rw [ht1id, htid])
          have hs2conf : s2.conferenceId = target.conferenceId := by
            rw [← hcf, hconfc, ht1t]
          exact absurd ha2 (hexc.2 s2 h2 hs2conf c2)
      · by_cases c2 : s2.id = sid
        · obtain ⟨t2, ht2, rfl⟩ := mem_activate hf h2
          have ht2id : t2.id = sid := by
            rw [hidc] at c2
            exact c2
          have ht2t : t2 = target := hinj t2 ht2 target htmem (by rw [ht2id, htid])
          have hs1conf : s1.conferenceId = target.conferenceId := by
            rw [hcf, hconfc, ht2t]
          exact absurd ha1 (hexc.2 s1 h1 hs1conf c1)
        · by_cases hc1 : s1.conferenceId = target.conferenceId
          · exact absurd ha1 (hexc.2 s1 h1 hc1 c1)
          · obtain ⟨t1, ht1, rfl⟩ := mem_activate hf h1
            obtain ⟨t2, ht2, rfl⟩ := mem_activate hf h2
            have ht1id : t1.id ≠ sid := by
              rw [hidc] at c1
              exact c1
            have ht2id : t2.id ≠ sid := by
              rw [hidc] at c2
              exact c2
            have hcf12 : t1.conferenceId = t2.conferenceId := by
              rw [← hconfc t1, ← hconfc t2]
              exact hcf
            have ht1conf : t1.conferenceId ≠ target.conferenceId := by
              rw [hconfc] at hc1
              exact hc1
            have ht2conf : t2.conferenceId ≠ target.conferenceId := by
              intro heq
              exact ht1conf (hcf12.trans heq)
            have he1 : actOne sid (deactOne target.conferenceId sid t1) = t1 := by
              rw [actOne_deactOne_of_id_ne _ _ _ ht1id,
                deactOne_of_conf_ne _ _ _ ht1conf]
            have he2 : actOne sid (deactOne target.conferenceId sid t2) = t2 := by
              rw [actOne_deactOne_of_id_ne _ _ _ ht2id,
                deactOne_of_conf_ne _ _ _ ht2conf]
            have ha1t : t1.status = "active" := by
              rw [← he1]
              exact ha1
            have ha2t : t2.status = "active" := by
              rw [← he2]
              exact ha2
            rw [he1, he2]
            exact h.2 t1 ht1 t2 ht2 hcf12 ha1t ha2t

theorem surveyInv_step (l : List Survey) (op : SurveyOp)
    (h : SurveyInv l) : SurveyInv (surveyStep l op) := by
  cases op with
  | create cid nid t d => exact surveyInv_create l cid nid t d h
  | update sid t d so => exact surveyInv_update l sid t d so h
  | activate sid => exact surveyInv_activate l sid h
  | deactivate sid => exact surveyInv_deactivate l sid h

theorem surveyInv_run (l : List Survey) (ops : List SurveyOp)
    (h : SurveyInv l) : SurveyInv (runSurveyOps l ops) := by
  induction ops generalizing l with
  | nil => exact h
  | cons op rest ih => exact ih (surveyStep l op) (surveyInv_step l op h)

/-- C1: after a successful `PUT /surveys/:id/activate` the target survey is
active and every other survey of the same conference is not active; and since
`POST /surveys` creates drafts and `PUT /surveys/:id` writes only title,
description and sortOrder, every sequence of create, update, activate and
deactivate calls preserves the invariant that at most one survey per
conference is active (on a table with unique primary keys). -/
theorem C1_at_most_one_active_survey :
    (∀ (l : List Survey) (sid : Nat) (target : Survey),
      l.find? (fun s => s.id == sid) = some target →
      (∀ s ∈ activateSurvey l sid, s.id = sid → s.status = "active") ∧
      (∀ s ∈ activateSurvey l sid, s.conferenceId = target.conferenceId →
         s.id ≠ sid → s.status ≠ "active")) ∧
    (∀ (l : List Survey) (ops : List SurveyOp),
      SurveyInv l → SurveyInv (runSurveyOps l ops)) :=
  ⟨fun l sid target hf => activate_exclusive l sid target hf, surveyInv_run⟩

/-- A two-survey conference exercising the activation route and a full
operation sequence. -/
def exSurveys : List Survey :=
  [{ id := 1, conferenceId := 10, title := "a", description := "",
     status := "active", sortOrder := 1 },
   { id := 2, conferenceId := 10, title := "b", description := "",
     status := "draft", sortOrder := 2 }]

theorem C1_at_most_one_active_survey_witness :
    (∀ s ∈ activateSurvey exSurveys 2, s.id = 2 → s.status = "active") ∧
    (∀ s ∈ activateSurvey exSurveys 2,
      s.conferenceId = 10 → s.id ≠ 2 → s.status ≠ "active") ∧
    SurveyInv (runSurveyOps exSurveys
      [SurveyOp.activate 2, SurveyOp.create 10 3 "c" "", SurveyOp.deactivate 2]) := by
  have h2 : exSurveys.find? (fun s => s.id == 2)
      = some { id := 2, conferenceId := 10, title := "b", description := "",
               status := "draft", sortOrder := 2 } := by decide
  refine ⟨(C1_at_most_one_active_survey.1 exSurveys 2 _ h2).1,
    (C1_at_most_one_active_survey.1 exSurveys 2 _ h2).2,
    C1_at_most_one_active_survey.2 exSurveys _ ?_⟩
  constructor
  · show (exSurveys.map Survey.id).Nodup
    decide
  · intro s1 hm1 s2 hm2 hcf ha1 ha2
    fin_cases hm1 <;> fin_cases hm2 <;> simp_all

/-! ## Attendee authentication routes (src/backend/src/routes/auth.js)

`POST /auth/attendee/login` and `POST /auth/attendee/first-login`.
The bcrypt comparison, the generated password, the password hash function,
the database-generated id of a new attendee and the current time are
parameters of the embedded handlers.
-/

/-- The lockout knobs of `src/unnamed/part_007` (`config.lockout`). -/
structure LockoutConfig where
  attempts : Nat
  durationMins : Nat
deriving Repr, DecidableEq

/-- The values used when the environment variables are unset. -/
def defaultLockout : LockoutConfig := { attempts := 5, durationMins := 30 }

/-- The tables the auth routes touch. -/
structure AuthState where
  conferences : List Conference
  attendees : List Attendee
deriving Repr, DecidableEq

structure LoginRequest where
  email : String
  password : String
  conferenceCode : String
deriving Repr, DecidableEq

/-- The distinguishable responses of `POST /auth/attendee/login`. -/
inductive LoginResult where
  | badRequest
  | confNotFound
  | invalidCreds
  | lockedActive (lockedUntil : Nat)
  | notActivated
  | wrongPassword (remaining : Nat)
  | lockedNow (lockedUntil : Nat)
  | success (a : Attendee)
deriving Repr, DecidableEq

/-- The HTTP status code of each login response. -/
def loginStatusCode : LoginResult → Nat
  | .badRequest => 400
  | .confNotFound => 404
  | .invalidCreds => 401
  | .lockedActive _ => 423
  | .notActivated => 403
  | .wrongPassword _ => 401
  | .lockedNow _ => 423
  | .success _ => 200

/-- The guard `attendee.status === "locked" && attendee.lockedUntil &&
new Date() < attendee.lockedUntil`. -/
def lockActive (now : Nat) (a : Attendee) : Bool :=
  a.status == "locked" &&
    (match a.lockedUntil with
     | some t => decide (now < t)
     | none => false)

/-- `prisma.attendee.update({ where: { id } })`. -/
def updateAttendee (l : List Attendee) (aid : Nat) (f : Attendee → Attendee) :
    List Attendee :=
  l.map (fun a => if a.id = aid then f a else a)

/-- The row update of a successful login: active status, counters reset. -/
def successRow (now : Nat) (a : Attendee) : Attendee :=
  { a with status := "active", failedAttempts := 0, lockedUntil := none, lastLoginAt := some now }

/-- The row update locking the account after too many failed attempts. -/
def lockRow (attempts lu : Nat) (a : Attendee) : Attendee :=
  { a with status := "locked", failedAttempts := attempts, lockedUntil := some lu }

/-- The row update storing an incremented failed-attempts counter. -/
def failRow (attempts : Nat) (a : Attendee) : Attendee :=
  { a with failedAttempts := attempts }

/-- `POST /auth/attendee/login`. -/
def attendeeLogin (cfg : LockoutConfig) (now : Nat)
    (compare : String → String → Bool) (st : AuthState) (req : LoginRequest) :
    LoginResult × AuthState :=
  if req.email = "" ∨ req.password = "" ∨ req.conferenceCode = "" then
    (.badRequest, st)
  else
    match st.conferences.find? (fun c => c.urlCode == req.conferenceCode) with
    | none => (.confNotFound, st)
    | some conf =>
      match st.attendees.find? (fun a =>
          a.conferenceId == conf.id && a.email == lowerStr req.email) with
      | none => (.invalidCreds, st)
      | some att =>
        if lockActive now att then
          (.lockedActive (att.lockedUntil.getD 0), st)
        else
          match att.passwordHash with
          | none => (.notActivated, st)
          | some hsh =>
            if compare req.password hsh then
              (.success (successRow now att),
               { st with attendees := updateAttendee st.attendees att.id (successRow now) })
            else
              let attempts := att.failedAttempts + 1
              if cfg.attempts ≤ attempts then
                let lu := now + cfg.durationMins * 60 * 1000
                (.lockedNow lu,
                 { st with attendees := updateAttendee st.attendees att.id (lockRow attempts lu) })
              else
                (.wrongPassword (cfg.attempts - attempts),
                 { st with attendees := updateAttendee st.attendees att.id (failRow attempts) })

structure FirstLoginRequest where
  email : String
  firstName : String
  lastName : String
  conferenceCode : String
deriving Repr, DecidableEq

/-- The distinguishable responses of `POST /auth/attendee/first-login`. -/
inductive FirstLoginResult where
  | badRequest
  | confNotFound
  | confInactive
  | alreadyRegistered
  | tokenExisting (a : Attendee)
  | created (a : Attendee) (generatedPassword : String)
deriving Repr, DecidableEq

/-- The HTTP status code of each first-login response. -/
def firstLoginStatusCode : FirstLoginResult → Nat
  | .badRequest => 400
  | .confNotFound => 404
  | .confInactive => 400
  | .alreadyRegistered => 409
  | .tokenExisting _ => 200
  | .created _ _ => 201

/-- The attendee row created by a first-time registration. -/
def newAttendeeRow (now : Nat) (genPassword : String) (hashPw : String → String)
    (newId confId : Nat) (req : FirstLoginRequest) : Attendee where
  id := newId
  conferenceId := confId
  email := lowerStr req.email
  firstName := jsTrim req.firstName
  lastName := jsTrim req.lastName
  passwordHash := some (hashPw genPassword)
  status := "first_login"
  failedAttempts := 0
  lockedUntil := none
  firstLoginAt := some now
  lastLoginAt := some now

/-- `POST /auth/attendee/first-login`. -/
def firstLogin (now : Nat) (genPassword : String) (hashPw : String → String)
    (newId : Nat) (st : AuthState) (req : FirstLoginRequest) :
    FirstLoginResult × AuthState :=
  if req.email = "" ∨ req.conferenceCode = "" then (.badRequest, st)
  else if req.firstName = "" ∨ req.lastName = "" then (.badRequest, st)
  else
    match st.conferences.find? (fun c => c.urlCode == req.conferenceCode) with
    | none => (.confNotFound, st)
    | some conf =>
      if ¬ conf.status = "active" then (.confInactive, st)
      else
        match st.attendees.find? (fun a =>
            a.conferenceId == conf.id && a.email == lowerStr req.email) with
        | some existing =>
          if existing.status = "active" then (.alreadyRegistered, st)
          else (.tokenExisting existing, st)
        | none =>
          let att := newAttendeeRow now genPassword hashPw newId conf.id req
          (.created att genPassword, { st with attendees := st.attendees ++ [att] })

/-- Reduction of the login route on a wrong password for a reachable,
not-currently-locked attendee with a stored hash. -/
theorem attendeeLogin_wrongPassword (cfg : LockoutConfig) (now : Nat)
    (compare : String → String → Bool) (st : AuthState) (req : LoginRequest)
    (conf : Conference) (att : Attendee) (hsh : String)
    (he : ¬ req.email = "") (hp : ¬ req.password = "")
    (hc : ¬ req.conferenceCode = "")
    (hconf : st.conferences.find? (fun c => c.urlCode == req.conferenceCode)
      = some conf)
    (hatt : st.attendees.find? (fun a =>
      a.conferenceId == conf.id && a.email == lowerStr req.email) = some att)
    (hnl : lockActive now att = false)
    (hhash : att.passwordHash = some hsh)
    (hcmp : compare req.password hsh = false) :
    attendeeLogin cfg now compare st req =
      (if cfg.attempts ≤ att.failedAttempts + 1 then
        (.lockedNow (now + cfg.durationMins * 60 * 1000),
         { st with attendees :=
                     updateAttendee st.attendees att.id
                       (lockRow (att.failedAttempts + 1)
                         (now + cfg.durationMins * 60 * 1000)) })
      else
        (.wrongPassword (cfg.attempts - (att.failedAttempts + 1)),
         { st with attendees :=
                     updateAttendee st.attendees att.id
                       (failRow (att.failedAttempts + 1)) })) := by
  unfold attendeeLogin
  rw [if_neg (by simp [he, hp, hc])]
  simp only [hconf, hatt, hnl, hhash, hcmp]
  simp

/-- Reduction of the login route for an attendee whose lock is still running. -/
theorem attendeeLogin_locked (cfg : LockoutConfig) (now : Nat)
    (compare : String → String → Bool) (st : AuthState) (req : LoginRequest)
    (conf : Conference) (att : Attendee) (t : Nat)
    (he : ¬ req.email = "") (hp : ¬ req.password = "")
    (hc : ¬ req.conferenceCode = "")
    (hconf : st.conferences.find? (fun c => c.urlCode == req.conferenceCode)
      = some conf)
    (hatt : st.attendees.find? (fun a =>
      a.conferenceId == conf.id && a.email == lowerStr req.email) = some att)
    (hlock : att.status = "locked") (hlu : att.lockedUntil = some t)
    (hnow : now < t) :
    attendeeLogin cfg now compare st req = (.lockedActive t, st) := by
  have hla : lockActive now att = true := by
    unfold lockActive
    rw [hlu]
    simp [hlock, hnow]
  unfold attendeeLogin
  rw [if_neg (by simp [he, hp, hc])]
  simp only [hconf, hatt, hla, hlu]
  simp

/-- C2: on a wrong password for a reachable attendee that has a stored hash
and is not currently locked, the login route increments the failed-attempts
counter by one; when the incremented counter reaches `config.lockout.attempts`
it locks the account until now plus `config.lockout.durationMins` minutes and
answers 423, and for smaller counts it stores the incremented counter and
answers 401. -/
theorem C2_failed_login_lockout (cfg : LockoutConfig) (now : Nat)
    (compare : String → String → Bool) (st : AuthState) (req : LoginRequest)
    (conf : Conference) (att : Attendee) (hsh : String)
    (he : ¬ req.email = "") (hp : ¬ req.password = "")
    (hc : ¬ req.conferenceCode = "")
    (hconf : st.conferences.find? (fun c => c.urlCode == req.conferenceCode)
      = some conf)
    (hatt : st.attendees.find? (fun a =>
      a.conferenceId == conf.id && a.email == lowerStr req.email) = some att)
    (hnl : lockActive now att = false)
    (hhash : att.passwordHash = some hsh)
    (hcmp : compare req.password hsh = false) :
    (cfg.attempts ≤ att.failedAttempts + 1 →
      attendeeLogin cfg now compare st req =
        (.lockedNow (now + cfg.durationMins * 60 * 1000),
         { st with attendees :=
                     updateAttendee st.attendees att.id
                       (lockRow (att.failedAttempts + 1)
                         (now + cfg.durationMins * 60 * 1000)) }) ∧
      loginStatusCode (attendeeLogin cfg now compare st req).1 = 423) ∧
    (att.failedAttempts + 1 < cfg.attempts →
      attendeeLogin cfg now compare st req =
        (.wrongPassword (cfg.attempts - (att.failedAttempts + 1)),
         { st with attendees :=
                     updateAttendee st.attendees att.id
                       (failRow (att.failedAttempts + 1)) }) ∧
      loginStatusCode (attendeeLogin cfg now compare st req).1 = 401) := by
  have hred := attendeeLogin_wrongPassword cfg now compare st req conf att hsh
    he hp hc hconf hatt hnl hhash hcmp
  constructor
  · intro hge
    rw [hred, if_pos hge]
    exact ⟨rfl, rfl⟩
  · intro hlt
    rw [hred, if_neg (Nat.not_le.mpr hlt)]
    exact ⟨rfl, rfl⟩

/-- C7: a locked attendee whose `lockedUntil` lies in the future gets 423
whatever the supplied password is, and the store is unchanged. -/
theorem C7_locked_attendee_rejected (cfg : LockoutConfig) (now : Nat)
    (compare : String → String → Bool) (st : AuthState) (req : LoginRequest)
    (conf : Conference) (att : Attendee) (t : Nat)
    (he : ¬ req.email = "") (hp : ¬ req.password = "")
    (hc : ¬ req.conferenceCode = "")
    (hconf : st.conferences.find? (fun c => c.urlCode == req.conferenceCode)
      = some conf)
    (hatt : st.attendees.find? (fun a =>
      a.conferenceId == conf.id && a.email == lowerStr req.email) = some att)
    (hlock : att.status = "locked") (hlu : att.lockedUntil = some t)
    (hnow : now < t) :
    attendeeLogin cfg now compare st req = (.lockedActive t, st) ∧
    loginStatusCode (attendeeLogin cfg now compare st req).1 = 423 := by
  have hred := attendeeLogin_locked cfg now compare st req conf att t
    he hp hc hconf hatt hlock hlu hnow
  refine ⟨hred, ?_⟩
  rw [hred]
  rfl

/-- C9: once the lock has expired, a single further wrong-password attempt
immediately re-locks the account with a fresh `lockedUntil`, because the
failed-attempts counter (still at or above the threshold) is reset only by a
successful login. -/
theorem C9_expired_lock_relocks (cfg : LockoutConfig) (now : Nat)
    (compare : String → String → Bool) (st : AuthState) (req : LoginRequest)
    (conf : Conference) (att : Attendee) (t : Nat) (hsh : String)
    (he : ¬ req.email = "") (hp : ¬ req.password = "")
    (hc : ¬ req.conferenceCode = "")
    (hconf : st.conferences.find? (fun c => c.urlCode == req.conferenceCode)
      = some conf)
    (hatt : st.attendees.find? (fun a =>
      a.conferenceId == conf.id && a.email == lowerStr req.email) = some att)
    (hlock : att.status = "locked") (hlu : att.lockedUntil = some t)
    (hexp : t ≤ now)
    (hhash : att.passwordHash = some hsh)
    (hcmp : compare req.password hsh = false)
    (hfa : cfg.attempts ≤ att.failedAttempts) :
    attendeeLogin cfg now compare st req =
      (.lockedNow (now + cfg.durationMins * 60 * 1000),
       { st with attendees :=
                   updateAttendee st.attendees att.id
                     (lockRow (att.failedAttempts + 1)
                       (now + cfg.durationMins * 60 * 1000)) }) ∧
    (0 < cfg.durationMins → now < now + cfg.durationMins * 60 * 1000) := by
  have hnl : lockActive now att = false := by
    unfold lockActive
    rw [hlu]
    simp [Nat.not_lt.mpr hexp]
  have hred := attendeeLogin_wrongPassword cfg now compare st req conf att hsh
    he hp hc hconf hatt hnl hhash hcmp
  rw [if_pos (le_trans hfa (Nat.le_succ _))] at hred
  refine ⟨hred, fun hd => ?_⟩
  omega

/-- An active demo conference. -/
def exConf : Conference :=
  { id := 1, urlCode := "CONF1", name := "Conf", status := "active", adminId := 50 }

/-- An attendee one failed attempt short of the lockout threshold. -/
def exAtt4 : Attendee :=
  { id := 2, conferenceId := 1, email := "ada@example.com", firstName := "Ada",
    lastName := "L", passwordHash := some "h", status := "active",
    failedAttempts := 4, lockedUntil := none, firstLoginAt := none,
    lastLoginAt := none }

/-- A locked attendee whose lock expires at time 2000. -/
def exAttLocked : Attendee :=
  { id := 3, conferenceId := 1, email := "bob@example.com", firstName := "Bob",
    lastName := "M", passwordHash := some "h", status := "locked",
    failedAttempts := 5, lockedUntil := some 2000, firstLoginAt := none,
    lastLoginAt := none }

theorem C2_failed_login_lockout_witness :
    attendeeLogin defaultLockout 1000 (fun _ _ => false)
        { conferences := [exConf], attendees := [exAtt4] }
        { email := "Ada@Example.com", password := "w", conferenceCode := "CONF1" } =
      (.lockedNow (1000 + 30 * 60 * 1000),
       { conferences := [exConf],
         attendees := updateAttendee [exAtt4] 2 (lockRow 5 (1000 + 30 * 60 * 1000)) }) ∧
    loginStatusCode (attendeeLogin defaultLockout 1000 (fun _ _ => false)
        { conferences := [exConf], attendees := [exAtt4] }
        { email := "Ada@Example.com", password := "w",
          conferenceCode := "CONF1" }).1 = 423 :=
  (C2_failed_login_lockout defaultLockout 1000 (fun _ _ => false)
    { conferences := [exConf], attendees := [exAtt4] }
    { email := "Ada@Example.com", password := "w", conferenceCode := "CONF1" }
    exConf exAtt4 "h" (by decide) (by decide) (by decide)
    rfl rfl rfl rfl rfl).1 (by decide)

theorem C7_locked_attendee_rejected_witness :
    attendeeLogin defaultLockout 1000 (fun _ _ => true)
        { conferences := [exConf], attendees := [exAttLocked] }
        { email := "bob@example.com", password := "right", conferenceCode := "CONF1" } =
      (.lockedActive 2000, { conferences := [exConf], attendees := [exAttLocked] }) ∧
    loginStatusCode (attendeeLogin defaultLockout 1000 (fun _ _ => true)
        { conferences := [exConf], attendees := [exAttLocked] }
        { email := "bob@example.com", password := "right",
          conferenceCode := "CONF1" }).1 = 423 :=
  C7_locked_attendee_rejected defaultLockout 1000 (fun _ _ => true)
    { conferences := [exConf], attendees := [exAttLocked] }
    { email := "bob@example.com", password := "right", conferenceCode := "CONF1" }
    exConf exAttLocked 2000 (by decide) (by decide) (by decide)
    rfl rfl rfl rfl (by decide)

theorem C9_expired_lock_relocks_witness :
    attendeeLogin defaultLockout 3000 (fun _ _ => false)
        { conferences := [exConf], attendees := [exAttLocked] }
        { email := "bob@example.com", password := "w", conferenceCode := "CONF1" } =
      (.lockedNow (3000 + 30 * 60 * 1000),
       { conferences := [exConf],
         attendees := updateAttendee [exAttLocked] 3 (lockRow 6 (3000 + 30 * 60 * 1000)) }) ∧
    (0 < (30 : Nat) → 3000 < 3000 + 30 * 60 * 1000) :=
  C9_expired_lock_relocks defaultLockout 3000 (fun _ _ => false)
    { conferences := [exConf], attendees := [exAttLocked] }
    { email := "bob@example.com", password := "w", conferenceCode := "CONF1" }
    exConf exAttLocked 2000 "h" (by decide) (by decide) (by decide)
    rfl rfl rfl rfl (by decide) rfl rfl (by decide)

/-- In every branch of the first-login route that answers 201, the created
attendee stores the lowercased request email. -/
theorem firstLogin_created_email (now : Nat) (genPw : String)
    (hashPw : String → String) (newId : Nat) (st : AuthState)
    (req : FirstLoginRequest) (a : Attendee) (p : String)
    (hres : (firstLogin now genPw hashPw newId st req).1 = .created a p) :
    a.email = lowerStr req.email := by
  unfold firstLogin at hres
  repeat' split at hres
  all_goals try simp_all [newAttendeeRow]
  all_goals obtain ⟨h1, h2⟩ := hres
  all_goals rw [← h1]

/-- Two first-login requests whose emails agree after lowercasing create the
same attendee row. -/
theorem newAttendeeRow_congr {e1 e2 : String} (h : lowerStr e1 = lowerStr e2)
    (now : Nat) (genPw : String) (hashPw : String → String)
    (newId confId : Nat) (fn ln code : String) :
    newAttendeeRow now genPw hashPw newId confId
        { email := e1, firstName := fn, lastName := ln, conferenceCode := code } =
      newAttendeeRow now genPw hashPw newId confId
        { email := e2, firstName := fn, lastName := ln, conferenceCode := code } := by
  unfold newAttendeeRow
  simp [h]

/-- C10: the first-login and login routes use the request email only through
its lowercasing — two requests whose emails agree after lowercasing run
identically, and a created attendee stores the lowercased email. -/
theorem C10_email_case_normalized (cfg : LockoutConfig) (now : Nat)
    (compare : String → String → Bool) (st : AuthState)
    (genPw : String) (hashPw : String → String) (newId : Nat)
    (e1 e2 pw code fn ln : String)
    (h : lowerStr e1 = lowerStr e2) :
    attendeeLogin cfg now compare st
        { email := e1, password := pw, conferenceCode := code } =
      attendeeLogin cfg now compare st
        { email := e2, password := pw, conferenceCode := code } ∧
    firstLogin now genPw hashPw newId st
        { email := e1, firstName := fn, lastName := ln, conferenceCode := code } =
      firstLogin now genPw hashPw newId st
        { email := e2, firstName := fn, lastName := ln, conferenceCode := code } ∧
    (∀ a p, (firstLogin now genPw hashPw newId st
        { email := e1, firstName := fn, lastName := ln,
          conferenceCode := code }).1 = .created a p → a.email = lowerStr e1) := by
  refine ⟨?_, ?_, fun a p hres => firstLogin_created_email _ _ _ _ _ _ _ _ hres⟩
  · by_cases h1 : e1 = ""
    · have h2 : e2 = "" := lowerStr_eq_empty (by rw [← h, h1]; rfl)
      rw [h1, h2]
    · have h2 : ¬ e2 = "" := fun hh => h1 (lowerStr_eq_empty (by rw [h, hh]; rfl))
      unfold attendeeLogin
      simp only [h1, h2, false_or, eq_self_iff_true]
      rw [h]
  · by_cases h1 : e1 = ""
    · have h2 : e2 = "" := lowerStr_eq_empty (by rw [← h, h1]; rfl)
      rw [h1, h2]
    · have h2 : ¬ e2 = "" := fun hh => h1 (lowerStr_eq_empty (by rw [h, hh]; rfl))
      unfold firstLogin
      simp only [h1, h2, false_or, eq_self_iff_true]
      simp only [newAttendeeRow_congr h]
      rw [h]

theorem C10_email_case_normalized_witness :
    attendeeLogin defaultLockout 0 (fun _ _ => true)
        { conferences := [exConf], attendees := [exAtt4] }
        { email := "Ada@Example.com", password := "p", conferenceCode := "CONF1" } =
      attendeeLogin defaultLockout 0 (fun _ _ => true)
        { conferences := [exConf], attendees := [exAtt4] }
        { email := "ada@EXAMPLE.com", password := "p", conferenceCode := "CONF1" } :=
  (C10_email_case_normalized defaultLockout 0 (fun _ _ => true)
    { conferences := [exConf], attendees := [exAtt4] } "g" (fun s => s) 9
    "Ada@Example.com" "ada@EXAMPLE.com" "p" "CONF1" "F" "L" rfl).1

/-- An attendee still in first_login status. -/
def exAttFirst : Attendee :=
  { id := 4, conferenceId := 1, email := "eve@example.com", firstName := "Eve",
    lastName := "N", passwordHash := some "h", status := "first_login",
    failedAttempts := 0, lockedUntil := none, firstLoginAt := some 0,
    lastLoginAt := some 0 }

/-- C4 counterexample: the request email (compared case-insensitively)
already belongs to an attendee of the conference, but because that attendee
is still in first_login status the route answers 200 with a token for the
existing attendee, not 409. -/
theorem C4_counterexample :
    (AuthState.mk [exConf] [exAttFirst]).attendees.find? (fun a =>
        a.conferenceId == exConf.id &&
        a.email == lowerStr "Eve@Example.com") = some exAttFirst ∧
    firstLogin 0 "pw" (fun s => s) 9
        { conferences := [exConf], attendees := [exAttFirst] }
        { email := "Eve@Example.com", firstName := "Eve", lastName := "N",
          conferenceCode := "CONF1" } =
      (.tokenExisting exAttFirst,
       { conferences := [exConf], attendees := [exAttFirst] }) ∧
    firstLoginStatusCode (firstLogin 0 "pw" (fun s => s) 9
        { conferences := [exConf], attendees := [exAttFirst] }
        { email := "Eve@Example.com", firstName := "Eve", lastName := "N",
          conferenceCode := "CONF1" }).1 = 200 :=
  ⟨rfl, rfl, rfl⟩

/-- C4 (amended): when the email (compared case-insensitively) already
belongs to an attendee of the conference whose status is active, the
first-login route answers 409 and changes nothing. -/
theorem C4_duplicate_email_conflict (now : Nat) (genPw : String)
    (hashPw : String → String) (newId : Nat) (st : AuthState)
    (req : FirstLoginRequest) (conf : Conference) (existing : Attendee)
    (he : ¬ req.email = "") (hc : ¬ req.conferenceCode = "")
    (hfn : ¬ req.firstName = "") (hln : ¬ req.lastName = "")
    (hconf : st.conferences.find? (fun c => c.urlCode == req.conferenceCode)
      = some conf)
    (hact : conf.status = "active")
    (hatt : st.attendees.find? (fun a =>
      a.conferenceId == conf.id && a.email == lowerStr req.email) = some existing)
    (hst : existing.status = "active") :
    firstLogin now genPw hashPw newId st req = (.alreadyRegistered, st) ∧
    firstLoginStatusCode (firstLogin now genPw hashPw newId st req).1 = 409 := by
  have heq : firstLogin now genPw hashPw newId st req = (.alreadyRegistered, st) := by
    unfold firstLogin
    rw [if_neg (by simp [he, hc]), if_neg (by simp [hfn, hln])]
    simp only [hconf, hact, hatt, hst]
    simp
  refine ⟨heq, ?_⟩
  rw [heq]
  rfl

theorem C4_duplicate_email_conflict_witness :
    firstLogin 0 "pw" (fun s => s) 9
        { conferences := [exConf], attendees := [exAtt4] }
        { email := "Ada@Example.com", firstName := "Ada", lastName := "L",
          conferenceCode := "CONF1" } =
      (.alreadyRegistered, { conferences := [exConf], attendees := [exAtt4] }) ∧
    firstLoginStatusCode (firstLogin 0 "pw" (fun s => s) 9
        { conferences := [exConf], attendees := [exAtt4] }
        { email := "Ada@Example.com", firstName := "Ada", lastName := "L",
          conferenceCode := "CONF1" }).1 = 409 :=
  C4_duplicate_email_conflict 0 "pw" (fun s => s) 9
    { conferences := [exConf], attendees := [exAtt4] }
    { email := "Ada@Example.com", firstName := "Ada", lastName := "L",
      conferenceCode := "CONF1" }
    exConf exAtt4 (by decide) (by decide) (by decide) (by decide) rfl rfl rfl rfl

/-! ## Response submission route (src/backend/src/routes/responses.js)

`POST /responses/survey/:surveyId`, run by an authenticated attendee
(`req.attendeeId`, `req.conferenceId` come from the auth middleware).
-/

/-- The tables the response routes touch. -/
structure RespState where
  surveys : List Survey
  questions : List Question
  responses : List Response
  attendees : List Attendee
deriving Repr, DecidableEq

/-- The distinguishable responses of `POST /responses/survey/:surveyId`. -/
inductive SubmitResult where
  | surveyNotFound
  | notActive
  | accessDenied
  | alreadySubmitted
  | missingRequired
  | dbConflict
  | created (count : Nat)
deriving Repr, DecidableEq

/-- The HTTP status code of each submission response. -/
def submitStatusCode : SubmitResult → Nat
  | .surveyNotFound => 404
  | .notActive => 400
  | .accessDenied => 403
  | .alreadySubmitted => 409
  | .missingRequired => 400
  | .dbConflict => 500
  | .created _ => 201

/-- The `findFirst` guard: does the attendee already have a stored response
to some question of the survey? -/
def hasResponseToSurvey (st : RespState) (aid sid : Nat) : Bool :=
  st.responses.any (fun r => r.attendeeId == aid &&
    st.questions.any (fun q => q.id == r.questionId && q.surveyId == sid))

/-- Modelled from the spec: the Prisma schema file is not under src/, and it
is that schema which declares the Response table unique per question and
attendee (spec: at most one Response per (Attendee, Question); the database
enforces uniqueness constraints).  A `prisma.$transaction` of creates
therefore succeeds only if the submitted rows conflict neither with a stored
row nor with each other; otherwise the whole transaction fails and the route
answers 500 having stored nothing. -/
def batchInsertOk (existing : List Response) (aid : Nat)
    (reqs : List (Nat × String)) : Prop :=
  (reqs.map Prod.fst).Nodup ∧
    ∀ p ∈ reqs, ∀ r ∈ existing, ¬(r.questionId = p.1 ∧ r.attendeeId = aid)

instance (existing : List Response) (aid : Nat) (reqs : List (Nat × String)) :
    Decidable (batchInsertOk existing aid reqs) := by
  unfold batchInsertOk
  infer_instance

/-- The rows created by one submission call. -/
def batchRows (aid : Nat) (reqs : List (Nat × String)) : List Response :=
  reqs.map (fun p => { questionId := p.1, attendeeId := aid, answer := p.2 })

/-- The required question ids of the survey that the submitted array does
not answer. -/
def missingRequiredIds (st : RespState) (sid : Nat)
    (reqs : List (Nat × String)) : List Nat :=
  ((st.questions.filter (fun q => q.surveyId == sid && q.isRequired)).map
    Question.id).filter (fun i => ¬ (reqs.map Prod.fst).contains i)

/-- `POST /responses/survey/:surveyId`. -/
def submitResponses (st : RespState) (aid cid sid : Nat)
    (reqs : List (Nat × String)) : SubmitResult × RespState :=
  match st.surveys.find? (fun s => s.id == sid) with
  | none => (.surveyNotFound, st)
  | some survey =>
    if ¬ survey.status = "active" then (.notActive, st)
    else if ¬ survey.conferenceId = cid then (.accessDenied, st)
    else if hasResponseToSurvey st aid sid then (.alreadySubmitted, st)
    else if ¬ missingRequiredIds st sid reqs = [] then (.missingRequired, st)
    else if batchInsertOk st.responses aid reqs then
      (.created (batchRows aid reqs).length,
       { st with responses := st.responses ++ batchRows aid reqs })
    else (.dbConflict, st)

/-- One authenticated submission call. -/
structure SubmitCall where
  attendeeId : Nat
  conferenceId : Nat
  surveyId : Nat
  responses : List (Nat × String)
deriving Repr

def runSubmits (st : RespState) (calls : List SubmitCall) : RespState :=
  calls.foldl
    (fun s c => (submitResponses s c.attendeeId c.conferenceId c.surveyId c.responses).2)
    st

/-- Two stored response rows never share their (attendee, question) pair. -/
def RespPairOk (r1 r2 : Response) : Prop :=
  ¬(r1.attendeeId = r2.attendeeId ∧ r1.questionId = r2.questionId)

instance : DecidableRel RespPairOk := fun r1 r2 => by
  unfold RespPairOk
  infer_instance

/-- At most one stored Response per (Attendee, Question). -/
def AtMostOnePerPair (l : List Response) : Prop := l.Pairwise RespPairOk

instance (l : List Response) : Decidable (AtMostOnePerPair l) := by
  unfold AtMostOnePerPair
  infer_instance

theorem atMostOnePerPair_insert (old : List Response) (aid : Nat)
    (reqs : List (Nat × String))
    (hinv : AtMostOnePerPair old)
    (hok : batchInsertOk old aid reqs) :
    AtMostOnePerPair (old ++ batchRows aid reqs) := by
  unfold AtMostOnePerPair at hinv ⊢
  rw [List.pairwise_append]
  refine ⟨hinv, ?_, ?_⟩
  · unfold batchRows
    rw [List.pairwise_map]
    have hnd : List.Pairwise (fun a b => a ≠ b) (reqs.map Prod.fst) := hok.1
    rw [List.pairwise_map] at hnd
    exact hnd.imp (fun hne hand => hne hand.2)
  · intro r1 h1 r2 h2
    unfold batchRows at h2
    obtain ⟨p, hp, rfl⟩ := List.mem_map.mp h2
    intro hand
    exact hok.2 p hp r1 h1 ⟨hand.2, hand.1⟩

/-- Every single submission call preserves the per-pair uniqueness of the
stored responses, whatever its argument list contains. -/
theorem atMostOnePerPair_submit (st : RespState) (aid cid sid : Nat)
    (reqs : List (Nat × String))
    (hinv : AtMostOnePerPair st.responses) :
    AtMostOnePerPair (submitResponses st aid cid sid reqs).2.responses := by
  unfold submitResponses
  repeat' split
  all_goals try exact hinv
  next hok => exact atMostOnePerPair_insert st.responses aid reqs hinv hok

theorem atMostOnePerPair_run (st : RespState) (calls : List SubmitCall)
    (hinv : AtMostOnePerPair st.responses) :
    AtMostOnePerPair (runSubmits st calls).responses := by
  induction calls generalizing st with
  | nil => exact hinv
  | cons c rest ih =>
    exact ih _ (atMostOnePerPair_submit st c.attendeeId c.conferenceId
      c.surveyId c.responses hinv)

/-- C6: every sequence of response-submission calls preserves the invariant
that each (attendee, question) pair has at most one stored Response, also
when a single call mentions the same questionId more than once (the modelled
unique constraint then fails the whole transaction). -/
theorem C6_at_most_one_response_per_pair :
    ∀ (st : RespState) (calls : List SubmitCall),
      AtMostOnePerPair st.responses →
      AtMostOnePerPair (runSubmits st calls).responses :=
  fun st calls hinv => atMostOnePerPair_run st calls hinv

/-- An active survey with two questions, one required. -/
def exSurvey : Survey :=
  { id := 5, conferenceId := 10, title := "s", description := "",
    status := "active", sortOrder := 1 }

def exQ1 : Question := { id := 21, surveyId := 5, isRequired := true }

def exQ2 : Question := { id := 22, surveyId := 5, isRequired := false }

/-- A response store holding one prior answer by attendee 8. -/
def exRespState : RespState :=
  { surveys := [exSurvey], questions := [exQ1, exQ2],
    responses := [{ questionId := 21, attendeeId := 8, answer := "old" }],
    attendees := [] }

theorem C6_at_most_one_response_per_pair_witness :
    AtMostOnePerPair (runSubmits exRespState
      [{ attendeeId := 7, conferenceId := 10, surveyId := 5,
         responses := [(21, "x"), (21, "y")] },
       { attendeeId := 9, conferenceId := 10, surveyId := 5,
         responses := [(21, "x"), (22, "y")] }]).responses :=
  C6_at_most_one_response_per_pair exRespState
    [{ attendeeId := 7, conferenceId := 10, surveyId := 5,
       responses := [(21, "x"), (21, "y")] },
     { attendeeId := 9, conferenceId := 10, surveyId := 5,
       responses := [(21, "x"), (22, "y")] }]
    (by decide)

/-- A deactivated survey with one question and a stored prior response. -/
def exSurveyInactive : Survey :=
  { id := 6, conferenceId := 10, title := "t", description := "",
    status := "inactive", sortOrder := 2 }

def exQ3 : Question := { id := 23, surveyId := 6, isRequired := false }

def exRespStateInactive : RespState :=
  { surveys := [exSurveyInactive], questions := [exQ3],
    responses := [{ questionId := 23, attendeeId := 8, answer := "old" }],
    attendees := [] }

/-- C3 counterexample: attendee 8 already has a stored response to a question
of survey 6, yet because the survey is no longer active the route answers
400, not 409 (the not-active guard runs before the duplicate check). -/
theorem C3_counterexample :
    hasResponseToSurvey exRespStateInactive 8 6 = true ∧
    submitResponses exRespStateInactive 8 10 6 [(23, "x")] =
      (.notActive, exRespStateInactive) ∧
    submitStatusCode (submitResponses exRespStateInactive 8 10 6
      [(23, "x")]).1 = 400 :=
  ⟨rfl, rfl, rfl⟩

/-- C3 (amended): provided the survey exists, is active and belongs to the
attendee conference, a submission by an attendee who already has a stored
response to any of its questions answers 409 and leaves the whole store
(responses and attendees) unchanged. -/
theorem C3_resubmission_conflict (st : RespState) (aid cid sid : Nat)
    (reqs : List (Nat × String)) (survey : Survey)
    (hf : st.surveys.find? (fun s => s.id == sid) = some survey)
    (hact : survey.status = "active")
    (hcid : survey.conferenceId = cid)
    (hex : hasResponseToSurvey st aid sid = true) :
    submitResponses st aid cid sid reqs = (.alreadySubmitted, st) ∧
    submitStatusCode (submitResponses st aid cid sid reqs).1 = 409 := by
  have heq : submitResponses st aid cid sid reqs = (.alreadySubmitted, st) := by
    unfold submitResponses
    simp only [hf, hact, hcid, hex]
    simp
  refine ⟨heq, ?_⟩
  rw [heq]
  rfl

theorem C3_resubmission_conflict_witness :
    submitResponses exRespState 8 10 5 [(21, "x")] =
      (.alreadySubmitted, exRespState) ∧
    submitStatusCode (submitResponses exRespState 8 10 5 [(21, "x")]).1 = 409 :=
  C3_resubmission_conflict exRespState 8 10 5 [(21, "x")] exSurvey rfl rfl rfl rfl

/-! ## Conference creation route (src/backend/src/routes/attendees.js)

`POST /conferences`: the random four-character suffix of a generated url
code and the database-generated id are explicit parameters.
-/

/-- The characters kept by `.replace(/[^A-Z0-9\s-]/g, "")` after
uppercasing. -/
def keepUrlChar (c : Char) : Bool :=
  (decide ('A' ≤ c) && decide (c ≤ 'Z')) ||
    (decide ('0' ≤ c) && decide (c ≤ '9')) || c.isWhitespace || c == '-'

/-- Replace each maximal whitespace run by one hyphen, modelling the
JavaScript `.replace` of whitespace runs. -/
def collapseWs : Bool → List Char → List Char
  | _, [] => []
  | prevWs, c :: rest =>
    if c.isWhitespace then
      (if prevWs then [] else ['-']) ++ collapseWs true rest
    else
      c :: collapseWs false rest

/-- `generateUrlCode(name)` with the random suffix an explicit parameter. -/
def generateUrlCode (name suffix : String) : String :=
  String.mk ((collapseWs false ((upperStr name).data.filter keepUrlChar)).take 40)
    ++ "-" ++ suffix

/-- The url code the route chooses: the trimmed provided one when present and
nonblank, otherwise one generated from the name. -/
def finalUrlCode (name : String) (urlCode : Option String) (suffix : String) :
    String :=
  match urlCode with
  | some u => if ¬ jsTrim u = "" then jsTrim u else generateUrlCode name suffix
  | none => generateUrlCode name suffix

inductive CreateConfResult where
  | conflict
  | created (c : Conference)
deriving Repr, DecidableEq

def createConfStatusCode : CreateConfResult → Nat
  | .conflict => 409
  | .created _ => 201

/-- The conference row created by the route. -/
def newConfRow (adminId newId : Nat) (name : String) (urlCode : Option String)
    (suffix : String) : Conference where
  id := newId
  urlCode := finalUrlCode name urlCode suffix
  name := name
  status := "draft"
  adminId := adminId

/-- `POST /conferences`: duplicate url-code check by `findUnique`, then
creation with status draft. -/
def createConference (l : List Conference) (adminId newId : Nat) (name : String)
    (urlCode : Option String) (suffix : String) :
    CreateConfResult × List Conference :=
  match l.find? (fun c => c.urlCode == finalUrlCode name urlCode suffix) with
  | some _ => (.conflict, l)
  | none =>
    (.created (newConfRow adminId newId name urlCode suffix),
     l ++ [newConfRow adminId newId name urlCode suffix])

/-- C5: when the chosen url code (the provided one, or one generated from the
name) collides with a stored conference the route answers 409 creating
nothing; otherwise it answers 201 appending a conference whose url code
differs from that of every other stored conference. -/
theorem C5_conference_url_code_unique (l : List Conference)
    (adminId newId : Nat) (name : String) (urlCode : Option String)
    (suffix : String) :
    ((∃ c ∈ l, c.urlCode = finalUrlCode name urlCode suffix) →
      createConference l adminId newId name urlCode suffix = (.conflict, l) ∧
      createConfStatusCode
        (createConference l adminId newId name urlCode suffix).1 = 409) ∧
    ((∀ c ∈ l, ¬ c.urlCode = finalUrlCode name urlCode suffix) →
      ∃ conf,
        createConference l adminId newId name urlCode suffix =
          (.created conf, l ++ [conf]) ∧
        conf.urlCode = finalUrlCode name urlCode suffix ∧
        createConfStatusCode
          (createConference l adminId newId name urlCode suffix).1 = 201 ∧
        ∀ c ∈ l, ¬ c.urlCode = conf.urlCode) := by
  constructor
  · intro hex
    obtain ⟨c, hc, hcode⟩ := hex
    have hs : (l.find? (fun c =>
        c.urlCode == finalUrlCode name urlCode suffix)).isSome :=
      List.find?_isSome.mpr ⟨c, hc, by simp [hcode]⟩
    obtain ⟨c0, hf⟩ := Option.isSome_iff_exists.mp hs
    have heq : createConference l adminId newId name urlCode suffix =
        (.conflict, l) := by
      unfold createConference
      rw [hf]
    refine ⟨heq, ?_⟩
    rw [heq]
    rfl
  · intro hall
    have hf : l.find? (fun c =>
        c.urlCode == finalUrlCode name urlCode suffix) = none :=
      List.find?_eq_none.mpr (fun c hc => by simpa using hall c hc)
    have heq : createConference l adminId newId name urlCode suffix =
        (.created (newConfRow adminId newId name urlCode suffix),
         l ++ [newConfRow adminId newId name urlCode suffix]) := by
      unfold createConference
      rw [hf]
    refine ⟨newConfRow adminId newId name urlCode suffix, heq, rfl, ?_, ?_⟩
    · rw [heq]
      rfl
    · intro c hc
      exact hall c hc

theorem C5_conference_url_code_unique_witness :
    (createConference [exConf] 50 2 "My Conf" (some "CONF1") "ZZZZ" =
      (.conflict, [exConf])) ∧
    (∃ conf,
      createConference [exConf] 50 2 "My Conf" (some "CONF2") "ZZZZ" =
        (.created conf, [exConf] ++ [conf]) ∧
      conf.urlCode = finalUrlCode "My Conf" (some "CONF2") "ZZZZ" ∧
      createConfStatusCode
        (createConference [exConf] 50 2 "My Conf" (some "CONF2") "ZZZZ").1 = 201 ∧
      ∀ c ∈ [exConf], ¬ c.urlCode = conf.urlCode) :=
  ⟨((C5_conference_url_code_unique [exConf] 50 2 "My Conf" (some "CONF1")
      "ZZZZ").1 ⟨exConf, by decide, by decide⟩).1,
   (C5_conference_url_code_unique [exConf] 50 2 "My Conf" (some "CONF2")
      "ZZZZ").2 (by decide)⟩

/-! ## Survey statistics route (src/backend/src/routes/statistics.js)

`GET /statistics/survey/:surveyId`: the summary fields the claim is about.
The JavaScript computes `(respondents.length / totalAttendees) * 100` in
floating point before `Math.round`; the embedding computes the same value
as an exact rational. -/

structure SurveyStats where
  totalRespondents : Nat
  totalAttendees : Nat
  responseRate : Nat
deriving Repr, DecidableEq

/-- `Math.round(num / den)` for nonnegative integers and positive divisor:
the floor of the quotient plus one half. -/
def jsRound (num den : Nat) : Nat := (2 * num + den) / (2 * den)

/-- The response rows whose question belongs to the survey. -/
def surveyResponses (st : RespState) (sid : Nat) : List Response :=
  st.responses.filter (fun r =>
    st.questions.any (fun q => q.id == r.questionId && q.surveyId == sid))

/-- `prisma.attendee.count({ where: { conferenceId } })`. -/
def conferenceAttendeeCount (st : RespState) (cid : Nat) : Nat :=
  (st.attendees.filter (fun a => a.conferenceId == cid)).length

/-- `GET /statistics/survey/:surveyId`: distinct respondents via
`groupBy(attendeeId)`, the attendee count of the conference, and the guarded
rounded response rate. -/
def surveyStatistics (st : RespState) (sid : Nat) : Option SurveyStats :=
  match st.surveys.find? (fun s => s.id == sid) with
  | none => none
  | some survey =>
    some { totalRespondents :=
             ((surveyResponses st sid).map Response.attendeeId).dedup.length,
           totalAttendees := conferenceAttendeeCount st survey.conferenceId,
           responseRate :=
             if 0 < conferenceAttendeeCount st survey.conferenceId then
               jsRound
                 (100 * ((surveyResponses st sid).map Response.attendeeId).dedup.length)
                 (conferenceAttendeeCount st survey.conferenceId)
             else 0 }

/-- The integer-division implementation of the rounded rate agrees with
mathematical half-up rounding of the exact quotient. -/
theorem jsRound_eq_round (num den : Nat) (hden : 0 < den) :
    (jsRound num den : ℤ) = round ((num : ℚ) / (den : ℚ)) := by
  have hd : ((den : ℚ)) ≠ 0 := Nat.cast_ne_zero.mpr hden.ne'
  have hstep : (num : ℚ) / (den : ℚ) + 1 / 2
      = ((2 * num + den : ℕ) : ℚ) / ((2 * den : ℕ) : ℚ) := by
    push_cast
    field_simp
    ring
  have hnn : (0 : ℚ) ≤ ((2 * num + den : ℕ) : ℚ) / ((2 * den : ℕ) : ℚ) := by
    positivity
  rw [round_eq, hstep, ← Int.natCast_floor_eq_floor hnn, Nat.floor_div_eq_div]
  rfl

/-- C8: the summary is recomputed from the stored rows: totalRespondents is
the number of distinct attendee ids among responses to the survey questions,
and responseRate is round(100 * totalRespondents / totalAttendees) when the
conference has attendees and 0 otherwise (the division is guarded). -/
theorem C8_statistics_recomputed (st : RespState) (sid : Nat)
    (stats : SurveyStats) (h : surveyStatistics st sid = some stats) :
    stats.totalRespondents =
      ((surveyResponses st sid).map Response.attendeeId).toFinset.card ∧
    (stats.totalAttendees = 0 → stats.responseRate = 0) ∧
    (0 < stats.totalAttendees →
      (stats.responseRate : ℤ) =
        round ((100 * (stats.totalRespondents : ℚ)) /
          (stats.totalAttendees : ℚ))) := by
  unfold surveyStatistics at h
  cases hf : st.surveys.find? (fun s => s.id == sid) with
  | none =>
    rw [hf] at h
    cases h
  | some survey =>
    rw [hf] at h
    simp only [Option.some.injEq] at h
    subst h
    refine ⟨?_, ?_, ?_⟩
    · rw [List.card_toFinset]
    · intro h0
      simp only at h0 ⊢
      rw [if_neg]
      omega
    · intro hpos
      simp only at hpos ⊢
      rw [if_pos hpos, jsRound_eq_round _ _ hpos]
      push_cast
      ring_nf

/-- Attendees of conference 10 for the statistics fixture. -/
def exStatAtt1 : Attendee :=
  { id := 8, conferenceId := 10, email := "a@x.com", firstName := "A",
    lastName := "A", passwordHash := some "h", status := "active",
    failedAttempts := 0, lockedUntil := none, firstLoginAt := none,
    lastLoginAt := none }

def exStatAtt2 : Attendee :=
  { id := 9, conferenceId := 10, email := "b@x.com", firstName := "B",
    lastName := "B", passwordHash := some "h", status := "active",
    failedAttempts := 0, lockedUntil := none, firstLoginAt := none,
    lastLoginAt := none }

def exStatsState : RespState :=
  { surveys := [exSurvey], questions := [exQ1, exQ2],
    responses := [{ questionId := 21, attendeeId := 8, answer := "a" },
                  { questionId := 22, attendeeId := 8, answer := "b" }],
    attendees := [exStatAtt1, exStatAtt2] }

def exStats : SurveyStats :=
  { totalRespondents := 1, totalAttendees := 2, responseRate := 50 }

theorem C8_statistics_recomputed_witness :
    exStats.totalRespondents =
      ((surveyResponses exStatsState 5).map Response.attendeeId).toFinset.card ∧
    (exStats.totalAttendees = 0 → exStats.responseRate = 0) ∧
    (0 < exStats.totalAttendees →
      (exStats.responseRate : ℤ) =
        round ((100 * (exStats.totalRespondents : ℚ)) /
          (exStats.totalAttendees : ℚ))) :=
  C8_statistics_recomputed exStatsState 5 exStats rfl

end ConfApp
